import Mathlib

/-!
# Verification of the `docker_swarm` reconciliation module

Shallow embedding of
`ansible_collections/community/docker/plugins/modules/docker_swarm.py`:
the desired-state builder (`TaskParameters`), the observed-state backfill
(`update_from_swarm_info`), the spec builder (`update_parameters`), the
field-by-field comparison (`compare_to_active`), and the convergence
controller (`SwarmManager.init_swarm` / `__update_swarm` / `remove` /
`inspect_swarm` / `get_unlock_key`), together with theorems checking the
module's specification.
-/

namespace DockerSwarm

/-- A Python value as it occurs in module parameters and in the JSON-decoded
swarm-info document.  `vNone` is Python `None`.  Lists and dicts are encoded
as constructor chains (`vDictCons k v rest`) so that equality is derivable;
the smart constructors `Value.dict` and `Value.list` build them from Lean
lists. -/
inductive Value where
  | vNone
  | vInt (i : Int)
  | vStr (s : String)
  | vBool (b : Bool)
  | vListNil
  | vListCons (hd tl : Value)
  | vDictNil
  | vDictCons (k : String) (v rest : Value)
deriving DecidableEq, Repr

/-- Build a dict value from an entry list. -/
def Value.dict : List (String × Value) → Value
  | [] => .vDictNil
  | (k, v) :: rest => .vDictCons k v (Value.dict rest)

/-- Build a list value from a Lean list. -/
def Value.list : List Value → Value
  | [] => .vListNil
  | v :: rest => .vListCons v (Value.list rest)

/-- The entry list of a dict value (empty for any non-dict). -/
def Value.entries : Value → List (String × Value)
  | .vDictCons k v rest => (k, v) :: rest.entries
  | _ => []

/-- Python falsiness of a value (`not bool(v)`). -/
def Value.falsy : Value → Bool
  | .vNone => true
  | .vInt i => i == 0
  | .vStr s => s == ""
  | .vBool b => !b
  | .vListNil => true
  | .vListCons _ _ => false
  | .vDictNil => true
  | .vDictCons _ _ _ => false

/-- `bool(v)` — negation of `falsy`, used for `if self.x:` tests. -/
def Value.truthy (v : Value) : Bool := !v.falsy

/-- `str(v)` as used by `"%s" % v` (scalars rendered as Python renders
them; containers approximated, they never occur in the compared strings). -/
def Value.pyStr : Value → String
  | .vNone => "None"
  | .vInt i => toString i
  | .vStr s => s
  | .vBool true => "True"
  | .vBool false => "False"
  | .vListNil | .vListCons _ _ => "[...]"
  | .vDictNil | .vDictCons _ _ _ => "\x7b...\x7d"

/-- First-match lookup in a Python dict, `d.get(k)` at the entry level. -/
def dlookup (d : List (String × Value)) (k : String) : Option Value :=
  (d.find? (fun e => e.1 == k)).map (fun e => e.2)

/-- `v.get(k)` on a dict-valued `v` (Python raises on non-dicts; documents
handled by the module are dicts, non-dicts answer `None` here). -/
def Value.get (v : Value) (k : String) : Option Value :=
  dlookup v.entries k

/-- `v.get(k)` collapsing a missing key to Python `None`. -/
def dictGetD (v : Value) (k : String) : Value := (v.get k).getD .vNone

/-- Whether a value is a dict. -/
def Value.isDict : Value → Bool
  | .vDictNil | .vDictCons _ _ _ => true
  | _ => false

/-- `v[k]`: direct indexing, `KeyError` when the key is missing, and a
`TypeError` when the receiver is not a dict. -/
def Value.index (v : Value) (k : String) : Except String Value :=
  if v.isDict then
    match dlookup v.entries k with
    | some x => .ok x
    | none => .error ("KeyError: " ++ k)
  else .error ("TypeError: value is not a dict, key " ++ k)

/-- `v[k1][k2]`, as in `self.swarm_info['Version']['Index']`. -/
def docIndex2 (v : Value) (k1 k2 : String) : Except String Value :=
  (v.index k1).bind (fun w => w.index k2)

/-- The entries of a dict value; an `AttributeError`/`TypeError` on
non-dict receivers. -/
def Value.asDict (v : Value) : Except String (List (String × Value)) :=
  if v.isDict then .ok v.entries else .error "TypeError: value is not a dict"

/-- `spec.get(K) or dict()`: a missing or falsy sub-section becomes the
empty dict; a truthy non-dict would make the subsequent `.get` fail. -/
def orEmptyDict (o : Option Value) : Except String (List (String × Value)) :=
  match o with
  | none => .ok []
  | some v => if v.falsy then .ok [] else v.asDict

/-- `spec.get('Labels') or {}`. -/
def orEmptyVal (o : Option Value) : Value :=
  match o with
  | none => .vDictNil
  | some v => if v.falsy then .vDictNil else v

/-- Replace the value at a key, or append the entry (`d[k] = v`). -/
def setKey (d : List (String × Value)) (k : String) (v : Value) :
    List (String × Value) :=
  match d with
  | [] => [(k, v)]
  | (k', v') :: rest =>
    if k' == k then (k', v) :: rest else (k', v') :: setKey rest k v

/-- Python `dst.update(src)` on two dict values. -/
def dictUpdate (dst src : Value) : Value :=
  if dst.isDict then
    Value.dict (src.entries.foldl (fun acc e => setKey acc e.1 e.2) dst.entries)
  else dst

/-- `if self.f is None: self.f = obs` — the single-field backfill step of
`update_from_swarm_info`. -/
def backfill (cur : Value) (obs : Option Value) : Value :=
  if cur = .vNone then obs.getD .vNone else cur

/-- The attribute names of `TaskParameters` (plus the two synthetic
difference names `state` and `joined` used by the controller). -/
inductive Field where
  | advertise_addr | listen_addr | remote_addrs | join_token
  | data_path_addr | data_path_port
  | snapshot_interval | task_history_retention_limit | keep_old_snapshots
  | log_entries_for_slow_followers | heartbeat_tick | election_tick
  | dispatcher_heartbeat_period | node_cert_expiry
  | name | labels | log_driver
  | signing_ca_cert | signing_ca_key | ca_force_rotate | autolock_managers
  | rotate_worker_token | rotate_manager_token
  | default_addr_pool | subnet_size
  | swarmSpec
  | state | joined
deriving DecidableEq, Repr

/-- Desired configuration: `TaskParameters.__init__` sets every attribute
to `None`; `swarmSpec` stands for the `spec` attribute attached later by
`update_parameters` (held outside this record, see `update_parameters`). -/
structure TaskParameters where
  advertise_addr : Value := .vNone
  listen_addr : Value := .vNone
  remote_addrs : Value := .vNone
  join_token : Value := .vNone
  data_path_addr : Value := .vNone
  data_path_port : Value := .vNone
  snapshot_interval : Value := .vNone
  task_history_retention_limit : Value := .vNone
  keep_old_snapshots : Value := .vNone
  log_entries_for_slow_followers : Value := .vNone
  heartbeat_tick : Value := .vNone
  election_tick : Value := .vNone
  dispatcher_heartbeat_period : Value := .vNone
  node_cert_expiry : Value := .vNone
  name : Value := .vNone
  labels : Value := .vNone
  log_driver : Value := .vNone
  signing_ca_cert : Value := .vNone
  signing_ca_key : Value := .vNone
  ca_force_rotate : Value := .vNone
  autolock_managers : Value := .vNone
  rotate_worker_token : Value := .vNone
  rotate_manager_token : Value := .vNone
  default_addr_pool : Value := .vNone
  subnet_size : Value := .vNone
deriving DecidableEq, Repr

/-- `TaskParameters()` — a blank desired configuration. -/
def blankParams : TaskParameters := {}

/-- `getattr(p, k)` for the attributes iterated by `compare_to_active`
(`swarmSpec`, `state` and `joined` are never read there: `spec` is in the
skip tuple, the other two are only difference names). -/
def TaskParameters.get (p : TaskParameters) : Field → Value
  | .advertise_addr => p.advertise_addr
  | .listen_addr => p.listen_addr
  | .remote_addrs => p.remote_addrs
  | .join_token => p.join_token
  | .data_path_addr => p.data_path_addr
  | .data_path_port => p.data_path_port
  | .snapshot_interval => p.snapshot_interval
  | .task_history_retention_limit => p.task_history_retention_limit
  | .keep_old_snapshots => p.keep_old_snapshots
  | .log_entries_for_slow_followers => p.log_entries_for_slow_followers
  | .heartbeat_tick => p.heartbeat_tick
  | .election_tick => p.election_tick
  | .dispatcher_heartbeat_period => p.dispatcher_heartbeat_period
  | .node_cert_expiry => p.node_cert_expiry
  | .name => p.name
  | .labels => p.labels
  | .log_driver => p.log_driver
  | .signing_ca_cert => p.signing_ca_cert
  | .signing_ca_key => p.signing_ca_key
  | .ca_force_rotate => p.ca_force_rotate
  | .autolock_managers => p.autolock_managers
  | .rotate_worker_token => p.rotate_worker_token
  | .rotate_manager_token => p.rotate_manager_token
  | .default_addr_pool => p.default_addr_pool
  | .subnet_size => p.subnet_size
  | .swarmSpec => .vNone
  | .state => .vNone
  | .joined => .vNone

/-- `self.__dict__` iteration order of `compare_to_active`: the
constructor's attributes, then the `spec` attribute attached by
`update_parameters`. -/
def allFields : List Field :=
  [.advertise_addr, .listen_addr, .remote_addrs, .join_token,
   .data_path_addr, .data_path_port,
   .snapshot_interval, .task_history_retention_limit, .keep_old_snapshots,
   .log_entries_for_slow_followers, .heartbeat_tick, .election_tick,
   .dispatcher_heartbeat_period, .node_cert_expiry,
   .name, .labels, .log_driver,
   .signing_ca_cert, .signing_ca_key, .ca_force_rotate, .autolock_managers,
   .rotate_worker_token, .rotate_manager_token,
   .default_addr_pool, .subnet_size, .swarmSpec]

/-- The skip tuple of `compare_to_active`: connection-only fields, token
rotation flags and the built spec object. -/
def skipFields : List Field :=
  [.advertise_addr, .listen_addr, .remote_addrs, .join_token,
   .rotate_worker_token, .rotate_manager_token, .swarmSpec,
   .default_addr_pool, .subnet_size, .data_path_addr, .data_path_port]

/-- The fields actually compared by `compare_to_active`
(`allFields` minus `skipFields`, in iteration order). -/
def comparedFields : List Field :=
  [.snapshot_interval, .task_history_retention_limit, .keep_old_snapshots,
   .log_entries_for_slow_followers, .heartbeat_tick, .election_tick,
   .dispatcher_heartbeat_period, .node_cert_expiry,
   .name, .labels, .log_driver,
   .signing_ca_cert, .signing_ca_key, .ca_force_rotate, .autolock_managers]

/-- The module's argument values after Ansible parsing (`module.params`):
optional tunables default to `None`; `listen_addr`, `force`, `state` and the
two rotate flags carry the declared defaults. -/
structure ModuleParams where
  advertise_addr : Value := .vNone
  data_path_addr : Value := .vNone
  data_path_port : Value := .vNone
  state : String := "present"
  force : Bool := false
  listen_addr : Value := .vStr "0.0.0.0:2377"
  remote_addrs : Value := .vNone
  join_token : Value := .vNone
  snapshot_interval : Value := .vNone
  task_history_retention_limit : Value := .vNone
  keep_old_snapshots : Value := .vNone
  log_entries_for_slow_followers : Value := .vNone
  heartbeat_tick : Value := .vNone
  election_tick : Value := .vNone
  dispatcher_heartbeat_period : Value := .vNone
  node_cert_expiry : Value := .vNone
  name : Value := .vNone
  labels : Value := .vNone
  signing_ca_cert : Value := .vNone
  signing_ca_key : Value := .vNone
  ca_force_rotate : Value := .vNone
  autolock_managers : Value := .vNone
  node_id : Value := .vNone
  rotate_worker_token : Value := .vBool false
  rotate_manager_token : Value := .vBool false
  default_addr_pool : Value := .vNone
  subnet_size : Value := .vNone

/-- `TaskParameters.from_ansible_params`: copy every module parameter whose
key is a `TaskParameters` attribute (`state`, `force` and `node_id` are not;
`log_driver` is an attribute but not a parameter, so it stays `None`). -/
def from_ansible_params (mp : ModuleParams) : TaskParameters :=
  { advertise_addr := mp.advertise_addr,
    listen_addr := mp.listen_addr,
    remote_addrs := mp.remote_addrs,
    join_token := mp.join_token,
    data_path_addr := mp.data_path_addr,
    data_path_port := mp.data_path_port,
    snapshot_interval := mp.snapshot_interval,
    task_history_retention_limit := mp.task_history_retention_limit,
    keep_old_snapshots := mp.keep_old_snapshots,
    log_entries_for_slow_followers := mp.log_entries_for_slow_followers,
    heartbeat_tick := mp.heartbeat_tick,
    election_tick := mp.election_tick,
    dispatcher_heartbeat_period := mp.dispatcher_heartbeat_period,
    node_cert_expiry := mp.node_cert_expiry,
    name := mp.name,
    labels := mp.labels,
    log_driver := .vNone,
    signing_ca_cert := mp.signing_ca_cert,
    signing_ca_key := mp.signing_ca_key,
    ca_force_rotate := mp.ca_force_rotate,
    autolock_managers := mp.autolock_managers,
    rotate_worker_token := mp.rotate_worker_token,
    rotate_manager_token := mp.rotate_manager_token,
    default_addr_pool := mp.default_addr_pool,
    subnet_size := mp.subnet_size }

/-- The sub-sections of the observed `Spec` document extracted by
`update_from_swarm_info` via `spec.get(K) or dict()`. -/
structure Sections where
  specD : List (String × Value)
  ca : List (String × Value)
  disp : List (String × Value)
  raft : List (String × Value)
  orch : List (String × Value)
  enc : List (String × Value)
deriving DecidableEq, Repr

/-- Extraction prefix of `update_from_swarm_info`: `spec = swarm_info['Spec']`
and the five `spec.get(K) or dict()` sub-sections. -/
def getSections (swarm_info : Value) : Except String Sections := do
  let spec ← swarm_info.index "Spec"
  let specD ← spec.asDict
  let ca ← orEmptyDict (dlookup specD "CAConfig")
  let disp ← orEmptyDict (dlookup specD "Dispatcher")
  let raft ← orEmptyDict (dlookup specD "Raft")
  let orch ← orEmptyDict (dlookup specD "Orchestration")
  let enc ← orEmptyDict (dlookup specD "EncryptionConfig")
  pure ⟨specD, ca, disp, raft, orch, enc⟩

/-- The `if self.f is None: self.f = section.get(K)` assignments of
`update_from_swarm_info` for the ten section-backed fields. -/
def applyBackfills (p : TaskParameters) (s : Sections) : TaskParameters :=
  { p with
    node_cert_expiry := backfill p.node_cert_expiry (dlookup s.ca "NodeCertExpiry"),
    ca_force_rotate := backfill p.ca_force_rotate (dlookup s.ca "ForceRotate"),
    dispatcher_heartbeat_period :=
      backfill p.dispatcher_heartbeat_period (dlookup s.disp "HeartbeatPeriod"),
    snapshot_interval := backfill p.snapshot_interval (dlookup s.raft "SnapshotInterval"),
    keep_old_snapshots := backfill p.keep_old_snapshots (dlookup s.raft "KeepOldSnapshots"),
    heartbeat_tick := backfill p.heartbeat_tick (dlookup s.raft "HeartbeatTick"),
    log_entries_for_slow_followers :=
      backfill p.log_entries_for_slow_followers (dlookup s.raft "LogEntriesForSlowFollowers"),
    election_tick := backfill p.election_tick (dlookup s.raft "ElectionTick"),
    task_history_retention_limit :=
      backfill p.task_history_retention_limit (dlookup s.orch "TaskHistoryRetentionLimit"),
    autolock_managers := backfill p.autolock_managers (dlookup s.enc "AutoLockManagers") }

/-- `if self.name is None: self.name = spec['Name']` — direct indexing, a
`KeyError` when `Name` is missing and the name was left unset. -/
def applyName (p : TaskParameters) (specD : List (String × Value)) :
    Except String TaskParameters :=
  if p.name = .vNone then
    match dlookup specD "Name" with
    | some v => .ok { p with name := v }
    | none => .error "KeyError: Name"
  else .ok p

/-- `if self.labels is None: self.labels = spec.get('Labels') or dict()`. -/
def applyLabels (p : TaskParameters) (specD : List (String × Value)) : TaskParameters :=
  if p.labels = .vNone then { p with labels := orEmptyVal (dlookup specD "Labels") } else p

/-- `spec['TaskDefaults']` — direct indexing, a `KeyError` when missing. -/
def getTaskDefaults (specD : List (String × Value)) :
    Except String (List (String × Value)) :=
  match dlookup specD "TaskDefaults" with
  | some v => v.asDict
  | none => .error "KeyError: TaskDefaults"

/-- `if 'LogDriver' in spec['TaskDefaults']: self.log_driver = ...` —
unconditional overwrite when the key is present. -/
def applyLogDriver (p : TaskParameters) (td : List (String × Value)) : TaskParameters :=
  match dlookup td "LogDriver" with
  | some v => { p with log_driver := v }
  | none => p

/-- `TaskParameters.update_from_swarm_info`: backfill every still-unset
desired field from the observed swarm document. -/
def update_from_swarm_info (p : TaskParameters) (swarm_info : Value) :
    Except String TaskParameters :=
  match getSections swarm_info with
  | .error e => .error e
  | .ok s =>
    match applyName (applyBackfills p s) s.specD with
    | .error e => .error e
    | .ok p2 =>
      match getTaskDefaults s.specD with
      | .error e => .error e
      | .ok td => .ok (applyLogDriver (applyLabels p2 s.specD) td)

/-- The `assign` table of `TaskParameters.update_parameters`, in insertion
order. -/
def assignFields : List Field :=
  [.snapshot_interval, .task_history_retention_limit, .keep_old_snapshots,
   .log_entries_for_slow_followers, .heartbeat_tick, .election_tick,
   .dispatcher_heartbeat_period, .node_cert_expiry, .name, .labels,
   .signing_ca_cert, .signing_ca_key, .ca_force_rotate, .autolock_managers,
   .log_driver]

/-- `TaskParameters.update_parameters`: the keyword arguments handed to
`client.create_swarm_spec` — every `assign` field that passes the
capability gate and is not `None`.  The transport's spec object is
identified with this argument list. -/
def update_parameters (p : TaskParameters) (supported : Field → Bool) :
    List (Field × Value) :=
  assignFields.foldl
    (fun acc f =>
      if !(supported f) then acc
      else if p.get f = .vNone then acc
      else acc ++ [(f, p.get f)])
    []

/-- One named difference: `(field, parameter=desired, active=observed)`. -/
structure DiffEntry where
  dname : Field
  parameter : Value
  active : Value
deriving DecidableEq, Repr

/-- Modelled from the spec: `DifferenceTracker`
(`plugins/module_utils/util.py`, not part of the sources here) accumulates
named (field, desired, observed) triples in insertion order and exposes an
emptiness check and a per-field lookup. -/
structure DifferenceTracker where
  entries : List DiffEntry := []
deriving DecidableEq, Repr

/-- `DifferenceTracker.add(name, parameter=..., active=...)`: append. -/
def DifferenceTracker.add (t : DifferenceTracker) (f : Field) (parameter active : Value) :
    DifferenceTracker :=
  ⟨t.entries ++ [⟨f, parameter, active⟩]⟩

/-- `DifferenceTracker.empty`. -/
def DifferenceTracker.empty (t : DifferenceTracker) : Bool := t.entries.isEmpty

/-- `DifferenceTracker.has_difference_for(name)`. -/
def DifferenceTracker.has_difference_for (t : DifferenceTracker) (f : Field) : Bool :=
  t.entries.any (fun e => e.dname == f)

/-- One iteration of the `for k in self.__dict__` loop of
`compare_to_active`: skip tuple, capability gate, `None` desired values,
then record unequal values. -/
def cmpStep (p other : TaskParameters) (supported : Field → Bool)
    (acc : DifferenceTracker) (k : Field) : DifferenceTracker :=
  if k ∈ skipFields then acc
  else if !(supported k) then acc
  else if p.get k = .vNone then acc
  else if p.get k ≠ other.get k then acc.add k (p.get k) (other.get k)
  else acc

/-- `TaskParameters.compare_to_active`: the attribute loop followed by the
two unconditional rotate-token pseudo-differences. -/
def compare_to_active (p other : TaskParameters) (supported : Field → Bool)
    (differences : DifferenceTracker) : DifferenceTracker :=
  let ds := allFields.foldl (cmpStep p other supported) differences
  let ds := if p.rotate_worker_token.truthy then
      ds.add .rotate_worker_token (.vBool true) (.vBool false) else ds
  if p.rotate_manager_token.truthy then
    ds.add .rotate_manager_token (.vBool true) (.vBool false) else ds

/-- The mutable state of one `SwarmManager` invocation: `self.swarm_info`,
the pieces of `self.results` the claims observe, `self.differences` and
`self.created`. -/
structure MState where
  swarm_info : Value := .vDictNil
  changed : Bool := false
  actions : List String := []
  facts : Option Value := none
  differences : DifferenceTracker := {}
  created : Bool := false
deriving DecidableEq, Repr

/-- The fresh per-invocation state (`results = dict(changed=False, ...)`,
`self.swarm_info = {}`, empty tracker, `self.created = False`). -/
def initState : MState := {}

/-- `SwarmManager.has_swarm_lock_changed`. -/
def has_swarm_lock_changed (p : TaskParameters) (created : Bool)
    (differences : DifferenceTracker) : Bool :=
  p.autolock_managers.truthy &&
    (created || differences.has_difference_for .autolock_managers)

/-- The `{'UnlockKey': None}` default of `get_unlock_key`. -/
def unlockDefault : Value := .vDictCons "UnlockKey" .vNone .vDictNil

/-- `SwarmManager.get_unlock_key`: best-effort fetch — only when the lock
state changed; a transport error or a falsy reply is replaced by the
default. -/
def get_unlock_key (p : TaskParameters) (created : Bool)
    (differences : DifferenceTracker) (fetch : Except Unit Value) : Value :=
  if !(has_swarm_lock_changed p created differences) then unlockDefault
  else
    match fetch with
    | .ok v => if v.falsy then unlockDefault else v
    | .error _ => unlockDefault

/-- `SwarmManager.inspect_swarm`: on transport success store the document,
reset `changed`, publish the facts and merge the best-effort unlock key
into the (shared) document; a transport error leaves the state untouched. -/
def inspect_swarm (inspectRes : Except Unit Value) (fetch : Except Unit Value)
    (p : TaskParameters) (st : MState) : MState :=
  match inspectRes with
  | .error _ => st
  | .ok data =>
    let key := get_unlock_key p st.created st.differences fetch
    let merged := dictUpdate data key
    { st with swarm_info := merged, changed := false, facts := some merged }

/-- The external collaborators of one invocation, fixed up front: the
capability gate, check mode, the transport answers in call order
(`inspect1`/`key_fetch1` for the first `inspect_swarm`, `inspect2`/
`key_fetch2` for the post-mutation one) and the module parameters. -/
structure Client where
  check_mode : Bool := false
  force : Bool := false
  supported : Field → Bool := fun _ => true
  mgr_before : Bool := false
  mgr_after : Bool := true
  init_result : Except Unit Unit := .ok ()
  update_result : Except Unit Unit := .ok ()
  inspect1 : Except Unit Value := .error ()
  inspect2 : Except Unit Value := .error ()
  key_fetch1 : Except Unit Value := .error ()
  key_fetch2 : Except Unit Value := .error ()
  module_params : ModuleParams := {}

/-- The desired configuration built for this invocation. -/
def userParams (c : Client) : TaskParameters := from_ansible_params c.module_params

/-- The state after the first `inspect_swarm` of the update path (called
with the not-yet-backfilled parameters on the fresh state). -/
def firstInspect (c : Client) : MState :=
  inspect_swarm c.inspect1 c.key_fetch1 (userParams c) initState

/-- An `update_swarm` transport submission: version tag, spec argument
list and the two rotate flags. -/
structure UpdateCall where
  version : Value
  swarm_spec : List (Field × Value)
  rotate_worker_token : Value
  rotate_manager_token : Value
deriving DecidableEq, Repr

/-- `SwarmManager.__update_swarm`.  Fatal paths are `.error`; success
returns the final state together with the submitted update call, when one
was made.  The `Version`/`Name`/`TaskDefaults` `KeyError`s propagate as
errors (in the source they escape the `except APIError` handler). -/
def update_swarm (c : Client) : Except String (MState × Option UpdateCall) :=
  let st1 := firstInspect c
  match docIndex2 st1.swarm_info "Version" "Index" with
  | .error e => .error e
  | .ok version =>
  match update_from_swarm_info (userParams c) st1.swarm_info with
  | .error e => .error e
  | .ok p' =>
  match update_from_swarm_info blankParams st1.swarm_info with
  | .error e => .error e
  | .ok old =>
  let diffs := compare_to_active p' old c.supported st1.differences
  if diffs.empty then
    .ok ({ st1 with
            differences := diffs,
            actions := st1.actions ++ ["No modification"],
            changed := false }, none)
  else
    let updSpec := update_parameters (from_ansible_params c.module_params) c.supported
    let call : Option UpdateCall :=
      if c.check_mode then none
      else some ⟨version, updSpec, p'.rotate_worker_token, p'.rotate_manager_token⟩
    match (if c.check_mode then Except.ok () else c.update_result) with
    | .error _ => .error "Can not update a Swarm Cluster"
    | .ok _ =>
      let st2 := inspect_swarm c.inspect2 c.key_fetch2 p' { st1 with differences := diffs }
      .ok ({ st2 with
              actions := st2.actions ++ ["Swarm cluster updated"],
              changed := true }, call)

/-- An `init_swarm` transport submission: the keyword arguments of
`client.init_swarm`, the four conditional ones as `Option`. -/
structure InitCall where
  advertise_addr : Value
  listen_addr : Value
  force_new_cluster : Bool
  swarm_spec : List (Field × Value)
  default_addr_pool : Option Value
  subnet_size : Option Value
  data_path_addr : Option Value
  data_path_port : Option Value
deriving DecidableEq, Repr

/-- The state after the `inspect_swarm` of the creation path (fresh
invocation state with `created = True`, parameters never backfilled). -/
def createInspect (c : Client) : MState :=
  inspect_swarm c.inspect1 c.key_fetch1 (userParams c) { initState with created := true }

/-- `SwarmManager.init_swarm`: dispatch to `__update_swarm` when the node
is already a manager and no reset was forced; otherwise create a cluster
and report the restricted facts.  Returns the final state, the submitted
init call and the submitted update call (each when one was made). -/
def init_swarm (c : Client) :
    Except String (MState × Option InitCall × Option UpdateCall) :=
  if !c.force && c.mgr_before then
    match update_swarm c with
    | .error e => .error e
    | .ok (st, u) => .ok (st, none, u)
  else
    let p := userParams c
    let call : Option InitCall :=
      if c.check_mode then none
      else some
        { advertise_addr := p.advertise_addr,
          listen_addr := p.listen_addr,
          force_new_cluster := c.force,
          swarm_spec := update_parameters p c.supported,
          default_addr_pool :=
            if p.default_addr_pool ≠ .vNone then some p.default_addr_pool else none,
          subnet_size := if p.subnet_size ≠ .vNone then some p.subnet_size else none,
          data_path_addr :=
            if p.data_path_addr ≠ .vNone then some p.data_path_addr else none,
          data_path_port :=
            if p.data_path_port ≠ .vNone then some p.data_path_port else none }
    match (if c.check_mode then Except.ok () else c.init_result) with
    | .error _ => .error "Can not create a new Swarm Cluster"
    | .ok _ =>
      if !c.mgr_after && !c.check_mode then .error "Swarm not created or other error!"
      else
        let st1 := createInspect c
        let st2 : MState :=
          { st1 with
            actions := st1.actions ++
              ["New Swarm cluster created: " ++ (dictGetD st1.swarm_info "ID").pyStr],
            differences := st1.differences.add .state (.vStr "present") (.vStr "absent"),
            changed := true,
            facts := some (.vDictCons "JoinTokens" (dictGetD st1.swarm_info "JoinTokens")
              (.vDictCons "UnlockKey" (dictGetD st1.swarm_info "UnlockKey") .vDictNil)) }
        .ok (st2, call, none)

/-- Modelled from the spec: the transport helper
`check_if_swarm_node_is_down` (`plugins/module_utils/swarm.py`, not part of
the sources here) polls the target node's status up to `repeat_check`
times and reports whether it reached the down state within that budget. -/
def check_if_swarm_node_is_down (statuses : Nat → Bool) (repeat_check : Nat) : Bool :=
  (List.range repeat_check).any statuses

/-- `SwarmManager.remove`.  `pollRes` is the outcome of the bounded status
poll (`.error` = transport error during polling).  The second component
records whether a `remove_node` request was submitted to the transport. -/
def remove (isManager : Bool) (pollRes : Except Unit Bool)
    (removeRes : Except Unit Unit) (check_mode : Bool) :
    Except String MState × Bool :=
  if !isManager then (.error "This node is not a manager.", false)
  else
    match pollRes with
    | .error _ => (.ok initState, false)
    | .ok status_down =>
      if !status_down then
        (.error "Can not remove the node. The status node is ready and not down.", false)
      else
        let done : MState :=
          { initState with
            actions := ["Node is removed from swarm cluster."],
            differences := DifferenceTracker.add {} .joined (.vBool false) (.vBool true),
            changed := true }
        if check_mode then (.ok done, false)
        else
          match removeRes with
          | .error _ => (.error "Can not remove the node from the Swarm Cluster", true)
          | .ok _ => (.ok done, true)

/-- The subset of the claim's backfilled fields: raft, certificate
authority, dispatcher, orchestration and encryption section fields plus
name and labels. -/
def backfillFields : List Field :=
  [.snapshot_interval, .keep_old_snapshots, .heartbeat_tick,
   .log_entries_for_slow_followers, .election_tick,
   .node_cert_expiry, .ca_force_rotate, .dispatcher_heartbeat_period,
   .task_history_retention_limit, .autolock_managers, .name, .labels]

/-- The fields carrying an entry in the module's `option_minimal_versions`
table; every other option is unconditionally supported by the capability
gate. -/
def gateableFields : List Field :=
  [.labels, .signing_ca_cert, .signing_ca_key, .ca_force_rotate,
   .autolock_managers, .log_driver, .default_addr_pool, .subnet_size,
   .data_path_addr, .data_path_port]

/-- The connection-only fields named by the specification: used only at
initialisation or join time, excluded from idempotency checking. -/
def connectionFields : List Field :=
  [.advertise_addr, .listen_addr, .remote_addrs, .join_token,
   .default_addr_pool, .subnet_size, .data_path_addr, .data_path_port]

/-- A representative observed swarm document used by the witnesses. -/
def exDoc : Value := .dict [
  ("ID", .vStr "abcdef"),
  ("Version", .dict [("Index", .vInt 11)]),
  ("Spec", .dict [
    ("Name", .vStr "default"),
    ("Labels", .dict []),
    ("Orchestration", .dict [("TaskHistoryRetentionLimit", .vInt 5)]),
    ("Raft", .dict [("SnapshotInterval", .vInt 10000), ("KeepOldSnapshots", .vInt 0),
      ("LogEntriesForSlowFollowers", .vInt 500), ("ElectionTick", .vInt 10),
      ("HeartbeatTick", .vInt 1)]),
    ("Dispatcher", .dict [("HeartbeatPeriod", .vInt 5000000000)]),
    ("CAConfig", .dict [("NodeCertExpiry", .vInt 7776000000000000)]),
    ("TaskDefaults", .dict []),
    ("EncryptionConfig", .dict [("AutoLockManagers", .vBool false)])]),
  ("JoinTokens", .dict [("Worker", .vStr "SWMTKN-w"), ("Manager", .vStr "SWMTKN-m")])]

/-- The successful result of a backfill, used by witnesses to name the
backfilled parameters concretely. -/
def ufsiOk (p : TaskParameters) (doc : Value) : TaskParameters :=
  match update_from_swarm_info p doc with
  | .ok q => q
  | .error _ => p

/-- The successful result of the create-or-update controller, used by
witnesses. -/
def initSwarmOk (c : Client) : MState × Option InitCall × Option UpdateCall :=
  match init_swarm c with
  | .ok r => r
  | .error _ => (initState, none, none)

/-- Desired parameters with only autolocking requested, for witnesses. -/
def pAutolock : TaskParameters := { autolock_managers := .vBool true }

/-- A client observing `exDoc` on a node that is already a manager. -/
def cIdem : Client := { mgr_before := true, inspect1 := .ok exDoc }

/-- The same client, additionally desiring `election_tick = 5` (the
observed document reports `10`). -/
def cTick : Client :=
  { cIdem with
      module_params := { election_tick := .vInt 5 },
      inspect2 := .ok exDoc }

/-- The same manager client with both token rotations requested. -/
def cRotate : Client :=
  { cIdem with
      module_params := { rotate_worker_token := .vBool true,
                         rotate_manager_token := .vBool true },
      inspect2 := .ok exDoc }

/-- A client on an uninitialised node (fresh creation path). -/
def cCreate : Client := { mgr_before := false, inspect1 := .ok exDoc }

/-! ## Helper lemmas -/

theorem inspect_differences (i f : Except Unit Value) (p : TaskParameters) (st : MState) :
    (inspect_swarm i f p st).differences = st.differences := by
  unfold inspect_swarm; cases i <;> rfl

theorem inspect_actions (i f : Except Unit Value) (p : TaskParameters) (st : MState) :
    (inspect_swarm i f p st).actions = st.actions := by
  unfold inspect_swarm; cases i <;> rfl

theorem inspect_created (i f : Except Unit Value) (p : TaskParameters) (st : MState) :
    (inspect_swarm i f p st).created = st.created := by
  unfold inspect_swarm; cases i <;> rfl

/-- Success of `update_from_swarm_info` decomposed into its stages. -/
theorem ufsi_ok_elim {p p' : TaskParameters} {doc : Value}
    (h : update_from_swarm_info p doc = .ok p') :
    ∃ s p2 td, getSections doc = .ok s
      ∧ applyName (applyBackfills p s) s.specD = .ok p2
      ∧ getTaskDefaults s.specD = .ok td
      ∧ p' = applyLogDriver (applyLabels p2 s.specD) td := by
  unfold update_from_swarm_info at h
  split at h
  · exact absurd h (by simp)
  · rename_i s hs
    split at h
    · exact absurd h (by simp)
    · rename_i p2 hp2
      split at h
      · exact absurd h (by simp)
      · rename_i td htd
        exact ⟨s, p2, td, hs, hp2, htd, (Except.ok.injEq _ _ ▸ h.symm)⟩

/-- A fold of `cmpStep` over fields that all contribute nothing is the
identity on the accumulator. -/
theorem foldl_cmpStep_id (p other : TaskParameters) (supported : Field → Bool)
    (l : List Field) (acc : DifferenceTracker)
    (h : ∀ k ∈ l, k ∉ skipFields → p.get k = .vNone ∨ p.get k = other.get k) :
    l.foldl (cmpStep p other supported) acc = acc := by
  induction l generalizing acc with
  | nil => rfl
  | cons k rest ih =>
    have hk := h k (List.mem_cons_self k rest)
    have hstep : cmpStep p other supported acc k = acc := by
      unfold cmpStep
      by_cases hks : k ∈ skipFields
      · simp [hks]
      · rcases hk hks with hv | hv <;> simp [hks, hv]
    rw [List.foldl_cons, hstep]
    exact ih _ (fun k' hk' => h k' (List.mem_cons_of_mem _ hk'))

theorem hdf_add (t : DifferenceTracker) (k f : Field) (v a : Value) :
    (t.add k v a).has_difference_for f = (t.has_difference_for f || (k == f)) := by
  unfold DifferenceTracker.add DifferenceTracker.has_difference_for
  simp [List.any_append]

/-- A field reported after one comparison step was already present or is
the stepped field, compared, supported, set and differing. -/
theorem hdf_cmpStep (p other : TaskParameters) (supported : Field → Bool)
    (acc : DifferenceTracker) (k f : Field)
    (h : (cmpStep p other supported acc k).has_difference_for f = true) :
    acc.has_difference_for f = true ∨
      (k = f ∧ k ∉ skipFields ∧ supported k = true ∧ p.get k ≠ .vNone ∧
        p.get k ≠ other.get k) := by
  unfold cmpStep at h
  split at h
  · exact Or.inl h
  · rename_i hks
    split at h
    · exact Or.inl h
    · rename_i hsup
      split at h
      · exact Or.inl h
      · rename_i hnone
        split at h
        · rename_i hne
          rw [hdf_add] at h
          rcases Bool.or_eq_true_iff.mp h with h1 | h1
          · exact Or.inl h1
          · exact Or.inr ⟨eq_of_beq h1, hks, by simpa using hsup, hnone, hne⟩
        · exact Or.inl h

theorem hdf_foldl_cmpStep (p other : TaskParameters) (supported : Field → Bool)
    (l : List Field) (acc : DifferenceTracker) (f : Field)
    (h : (l.foldl (cmpStep p other supported) acc).has_difference_for f = true) :
    acc.has_difference_for f = true ∨
      (f ∈ l ∧ f ∉ skipFields ∧ supported f = true ∧ p.get f ≠ .vNone ∧
        p.get f ≠ other.get f) := by
  induction l generalizing acc with
  | nil => exact Or.inl h
  | cons k rest ih =>
    rw [List.foldl_cons] at h
    rcases ih _ h with hacc | hrest
    · rcases hdf_cmpStep p other supported acc k f hacc with h1 | h1
      · exact Or.inl h1
      · rcases h1 with ⟨hkf, h2⟩
        subst hkf
        exact Or.inr ⟨List.mem_cons_self k rest, h2⟩
    · exact Or.inr ⟨List.mem_cons_of_mem _ hrest.1, hrest.2⟩

/-- Every keyword argument produced by `update_parameters` carries the
explicitly supplied desired value of a supported `assign` field. -/
theorem update_parameters_sound (p : TaskParameters) (supported : Field → Bool)
    (f : Field) (v : Value) (h : (f, v) ∈ update_parameters p supported) :
    f ∈ assignFields ∧ supported f = true ∧ p.get f ≠ .vNone ∧ p.get f = v := by
  unfold update_parameters at h
  suffices H : ∀ (l : List Field) (acc : List (Field × Value)),
      (f, v) ∈ l.foldl
        (fun acc f =>
          if !(supported f) then acc
          else if p.get f = .vNone then acc
          else acc ++ [(f, p.get f)]) acc →
      (f, v) ∈ acc ∨ (f ∈ l ∧ supported f = true ∧ p.get f ≠ .vNone ∧ p.get f = v) by
    rcases H assignFields [] h with h0 | h0
    · simp at h0
    · exact h0
  intro l
  induction l with
  | nil => intro acc h; exact Or.inl h
  | cons k rest ih =>
    intro acc h
    rw [List.foldl_cons] at h
    rcases ih _ h with hacc | hrest
    · by_cases hsup : supported k
      · simp only [hsup, Bool.not_true, Bool.false_eq_true, if_false] at hacc
        by_cases hnone : p.get k = .vNone
        · simp only [if_pos hnone] at hacc
          exact Or.inl hacc
        · simp only [if_neg hnone, List.mem_append] at hacc
          rcases hacc with h1 | h1
          · exact Or.inl h1
          · simp only [List.mem_singleton, Prod.mk.injEq] at h1
            refine Or.inr ⟨?_, ?_, ?_, ?_⟩
            · rw [h1.1]; exact List.mem_cons_self k rest
            · rw [h1.1]; exact hsup
            · rw [h1.1]; exact hnone
            · rw [h1.1]; exact h1.2.symm ▸ rfl
      · simp only [Bool.not_eq_true] at hsup
        simp only [hsup, Bool.not_false, if_pos] at hacc
        exact Or.inl hacc
    · exact Or.inr ⟨List.mem_cons_of_mem _ hrest.1, hrest.2⟩

/-- An unsupported field never reaches the submitted spec arguments. -/
theorem update_parameters_gated (p : TaskParameters) (supported : Field → Bool)
    (f : Field) (hsup : supported f = false) (v : Value) :
    (f, v) ∉ update_parameters p supported := by
  intro h
  have := (update_parameters_sound p supported f v h).2.1
  rw [hsup] at this
  exact Bool.false_ne_true this

/-- The ten fields assigned from the five `or dict()` sub-sections. -/
def sectionFields : List Field :=
  [.node_cert_expiry, .ca_force_rotate, .dispatcher_heartbeat_period,
   .snapshot_interval, .keep_old_snapshots, .heartbeat_tick,
   .log_entries_for_slow_followers, .election_tick,
   .task_history_retention_limit, .autolock_managers]

theorem get_applyBackfills_untouched (q : TaskParameters) (s : Sections) (f : Field)
    (hf : f ∉ sectionFields) : (applyBackfills q s).get f = q.get f := by
  cases f <;> first | rfl | exact absurd (by decide) hf

theorem get_applyLabels_ne (q : TaskParameters) (specD : List (String × Value))
    (f : Field) (hf : f ≠ .labels) : (applyLabels q specD).get f = q.get f := by
  unfold applyLabels
  split
  · cases f <;> first | rfl | exact absurd rfl hf
  · rfl

theorem get_applyLogDriver_ne (q : TaskParameters) (td : List (String × Value))
    (f : Field) (hf : f ≠ .log_driver) : (applyLogDriver q td).get f = q.get f := by
  unfold applyLogDriver
  split
  · cases f <;> first | rfl | exact absurd rfl hf
  · rfl

/-- Success of `applyName` decomposed: either the name was unset and is
taken from the document, or it is kept. -/
theorem applyName_ok_elim {p p2 : TaskParameters} {specD : List (String × Value)}
    (h : applyName p specD = .ok p2) :
    (p.name = .vNone ∧ ∃ nm, dlookup specD "Name" = some nm ∧ p2 = { p with name := nm })
    ∨ (p.name ≠ .vNone ∧ p2 = p) := by
  unfold applyName at h
  split at h
  · rename_i hn
    split at h
    · rename_i nm hnm
      refine Or.inl ⟨hn, nm, hnm, ?_⟩
      injection h with h
      exact h.symm
    · exact absurd h (by simp)
  · rename_i hn
    injection h with h
    exact Or.inr ⟨hn, h.symm⟩

theorem get_set_name (q : TaskParameters) (nm : Value) (f : Field) (hf : f ≠ .name) :
    ({ q with name := nm } : TaskParameters).get f = q.get f := by
  cases f <;> first | rfl | exact absurd rfl hf

/-- The skip-tuple fields are never touched by the backfill. -/
theorem ufsi_get_skip {p p' : TaskParameters} {doc : Value}
    (hp : update_from_swarm_info p doc = .ok p') (f : Field) (hf : f ∈ skipFields) :
    p'.get f = p.get f := by
  obtain ⟨s, p2, td, hs, hp2, htd, rfl⟩ := ufsi_ok_elim hp
  have h1 : f ≠ .log_driver := by intro h; subst h; exact absurd hf (by decide)
  have h2 : f ≠ .labels := by intro h; subst h; exact absurd hf (by decide)
  have h3 : f ≠ .name := by intro h; subst h; exact absurd hf (by decide)
  have h4 : f ∉ sectionFields := by
    intro h; fin_cases hf <;> exact absurd h (by decide)
  rw [get_applyLogDriver_ne _ _ _ h1, get_applyLabels_ne _ _ _ h2]
  rcases applyName_ok_elim hp2 with ⟨hn, nm, hnm, rfl⟩ | ⟨hn, rfl⟩
  · rw [get_set_name _ _ _ h3, get_applyBackfills_untouched _ _ _ h4]
  · rw [get_applyBackfills_untouched _ _ _ h4]

theorem applyLabels_log_driver (q : TaskParameters) (specD : List (String × Value)) :
    (applyLabels q specD).log_driver = q.log_driver := by
  unfold applyLabels
  split <;> rfl

theorem backfill_backfill (cur : Value) (obs : Option Value) :
    backfill cur (some (backfill .vNone obs)) = backfill cur obs := by
  unfold backfill
  split <;> simp

theorem backfill_vNone_self (cur : Value) : backfill cur (some .vNone) = cur := by
  unfold backfill
  split
  · rename_i h; rw [h]; rfl
  · rfl

/-- Backfill characterization: on every compared field, the backfilled
desired value is the user's value when set, and otherwise the value the
blank (purely observed) parameters receive from the same document. -/
theorem ufsi_get_eq {p p' old : TaskParameters} {doc : Value}
    (hp : update_from_swarm_info p doc = .ok p')
    (hold : update_from_swarm_info blankParams doc = .ok old)
    (hld : p.log_driver = .vNone)
    (f : Field) (hf : f ∈ comparedFields) :
    p'.get f = backfill (p.get f) (some (old.get f)) := by
  obtain ⟨s, p2, td, hs, hp2, htd, rfl⟩ := ufsi_ok_elim hp
  obtain ⟨s', q2, td', hs', hq2, htd', rfl⟩ := ufsi_ok_elim hold
  rw [hs] at hs'
  injection hs' with hss
  subst hss
  rw [htd] at htd'
  injection htd' with htt
  subst htt
  rcases applyName_ok_elim hq2 with ⟨hqn, nm, hnm, rfl⟩ | ⟨hqn, rfl⟩
  · rcases applyName_ok_elim hp2 with ⟨hn, nm', hnm', rfl⟩ | ⟨hn, rfl⟩
    · rw [hnm] at hnm'
      injection hnm' with hnn
      subst hnn
      simp only [applyBackfills] at hn
      fin_cases hf <;>
        (try simp only [get_applyLogDriver_ne, get_applyLabels_ne, get_set_name, ne_eq,
          reduceCtorEq, not_false_eq_true]) <;>
        first
        | (simp only [applyBackfills, TaskParameters.get, blankParams,
            backfill_backfill, backfill_vNone_self]; done)
        | (simp only [applyBackfills, TaskParameters.get, backfill, hn,
            eq_self_iff_true, if_true, ite_true, Option.getD_some]; done)
        | (by_cases hlb : p.labels = .vNone <;>
            simp only [applyLabels, applyBackfills, TaskParameters.get, blankParams,
              hlb, backfill, eq_self_iff_true, if_true, if_false, ite_true, ite_false,
              Option.getD_some] <;> done)
        | (cases hdl : dlookup td "LogDriver" <;>
            simp only [applyLogDriver, hdl, applyLabels_log_driver, applyBackfills,
              TaskParameters.get, blankParams, backfill, hld, eq_self_iff_true,
              if_true, ite_true, Option.getD_some] <;> done)
    · simp only [applyBackfills] at hn
      fin_cases hf <;>
        (try simp only [get_applyLogDriver_ne, get_applyLabels_ne, get_set_name, ne_eq,
          reduceCtorEq, not_false_eq_true]) <;>
        first
        | (simp only [applyBackfills, TaskParameters.get, blankParams,
            backfill_backfill, backfill_vNone_self]; done)
        | (simp only [applyBackfills, TaskParameters.get, backfill, hn,
            eq_self_iff_true, if_true, if_false, ite_true, ite_false,
            Option.getD_some]; done)
        | (by_cases hlb : p.labels = .vNone <;>
            simp only [applyLabels, applyBackfills, TaskParameters.get, blankParams,
              hlb, backfill, eq_self_iff_true, if_true, if_false, ite_true, ite_false,
              Option.getD_some] <;> done)
        | (cases hdl : dlookup td "LogDriver" <;>
            simp only [applyLogDriver, hdl, applyLabels_log_driver, applyBackfills,
              TaskParameters.get, blankParams, backfill, hld, eq_self_iff_true,
              if_true, ite_true, Option.getD_some] <;> done)
  · exact absurd rfl hqn

/-- A compared field whose user value agrees with the observed value (or
is unset) agrees after backfill. -/
theorem backfilled_agrees {p p' old : TaskParameters} {doc : Value}
    (hp : update_from_swarm_info p doc = .ok p')
    (hold : update_from_swarm_info blankParams doc = .ok old)
    (hld : p.log_driver = .vNone)
    (f : Field) (hf : f ∈ comparedFields)
    (hagree : p.get f ≠ .vNone → p.get f = old.get f) :
    p'.get f = old.get f := by
  rw [ufsi_get_eq hp hold hld f hf]
  unfold backfill
  split
  · rfl
  · rename_i h
    exact hagree h

theorem applyName_unset {p : TaskParameters} {specD : List (String × Value)} {nm : Value}
    (hn : p.name = .vNone) (hnm : dlookup specD "Name" = some nm) :
    applyName p specD = .ok { p with name := nm } := by
  unfold applyName
  rw [if_pos hn, hnm]

theorem applyName_set {p : TaskParameters} {specD : List (String × Value)}
    (hn : p.name ≠ .vNone) : applyName p specD = .ok p := by
  unfold applyName
  rw [if_neg hn]

/-- Assemble a successful backfill from its stages. -/
theorem ufsi_ok_intro {p p2 : TaskParameters} {doc : Value} {s : Sections}
    {td : List (String × Value)}
    (hs : getSections doc = .ok s)
    (hp2 : applyName (applyBackfills p s) s.specD = .ok p2)
    (htd : getTaskDefaults s.specD = .ok td) :
    update_from_swarm_info p doc = .ok (applyLogDriver (applyLabels p2 s.specD) td) := by
  simp only [update_from_swarm_info, hs, hp2, htd]

theorem hdf_ite_add (t : DifferenceTracker) (c : Bool) (k f : Field) (v a : Value)
    (h : (if c then t.add k v a else t).has_difference_for f = true) :
    t.has_difference_for f = true ∨ k = f := by
  cases c with
  | false =>
    simp only [Bool.false_eq_true, if_false, ite_false] at h
    exact Or.inl h
  | true =>
    simp only [if_true, ite_true] at h
    rw [hdf_add] at h
    rcases Bool.or_eq_true_iff.mp h with h | h
    · exact Or.inl h
    · exact Or.inr (eq_of_beq h)

/-- Inversion for the full comparison: a reported field comes from the
initial tracker, from a rotate pseudo-difference, or from a compared,
supported field with a set, differing desired value. -/
theorem hdf_compare_to_active (p other : TaskParameters) (supported : Field → Bool)
    (init : DifferenceTracker) (f : Field)
    (h : (compare_to_active p other supported init).has_difference_for f = true) :
    init.has_difference_for f = true ∨ f = .rotate_worker_token ∨
      f = .rotate_manager_token ∨
      (f ∈ allFields ∧ f ∉ skipFields ∧ supported f = true ∧ p.get f ≠ .vNone ∧
        p.get f ≠ other.get f) := by
  simp only [compare_to_active] at h
  rcases hdf_ite_add _ _ _ _ _ _ h with h | h
  · rcases hdf_ite_add _ _ _ _ _ _ h with h | h
    · rcases hdf_foldl_cmpStep _ _ _ _ _ _ h with h | h
      · exact Or.inl h
      · exact Or.inr (Or.inr (Or.inr h))
    · exact Or.inr (Or.inl h.symm)
  · exact Or.inr (Or.inr (Or.inl h.symm))

theorem empty_add (t : DifferenceTracker) (k : Field) (v a : Value) :
    (t.add k v a).empty = false := by
  unfold DifferenceTracker.add DifferenceTracker.empty
  simp

theorem hdf_add_self (t : DifferenceTracker) (k : Field) (v a : Value) :
    (t.add k v a).has_difference_for k = true := by
  rw [hdf_add]
  simp

theorem firstInspect_differences (c : Client) : (firstInspect c).differences = ⟨[]⟩ :=
  (inspect_differences _ _ _ _).trans rfl

theorem firstInspect_actions (c : Client) : (firstInspect c).actions = [] :=
  (inspect_actions _ _ _ _).trans rfl

theorem mem_comparedFields (k : Field) (hk : k ∈ allFields) (hs : k ∉ skipFields) :
    k ∈ comparedFields := by
  fin_cases hk <;> first | decide | exact absurd (by decide) hs

/-! ## Claim theorems -/

/-- C1: a create-or-update on a node that is already a manager, with no
forced reset, no rotate flags, whose desired fields all agree with the
observed cluster state, produces an empty DifferenceSet, reports
"No modification" with `changed = false`, and submits no update. -/
theorem claim_present_idempotent (c : Client) (ver : Value) (p' old : TaskParameters)
    (hforce : c.force = false) (hmgr : c.mgr_before = true)
    (hrW : c.module_params.rotate_worker_token = .vBool false)
    (hrM : c.module_params.rotate_manager_token = .vBool false)
    (hver : docIndex2 (firstInspect c).swarm_info "Version" "Index" = .ok ver)
    (hp : update_from_swarm_info (userParams c) (firstInspect c).swarm_info = .ok p')
    (hold : update_from_swarm_info blankParams (firstInspect c).swarm_info = .ok old)
    (hagree : ∀ f ∈ comparedFields,
        (userParams c).get f ≠ .vNone → (userParams c).get f = old.get f) :
    ∃ st, init_swarm c = .ok (st, none, none)
      ∧ st.differences.empty = true ∧ st.changed = false
      ∧ st.actions = ["No modification"] := by
  have hcmpf : ∀ f ∈ comparedFields, p'.get f = old.get f := fun f hf =>
    backfilled_agrees hp hold rfl f hf (hagree f hf)
  have hfold : allFields.foldl (cmpStep p' old c.supported) (firstInspect c).differences
      = (⟨[]⟩ : DifferenceTracker) := by
    rw [firstInspect_differences]
    exact foldl_cmpStep_id _ _ _ _ _
      (fun k hk hs => Or.inr (hcmpf k (mem_comparedFields k hk hs)))
  have hweq : p'.rotate_worker_token = c.module_params.rotate_worker_token :=
    ufsi_get_skip hp .rotate_worker_token (by decide)
  have hmeq : p'.rotate_manager_token = c.module_params.rotate_manager_token :=
    ufsi_get_skip hp .rotate_manager_token (by decide)
  have hw : p'.rotate_worker_token.truthy = false := by rw [hweq, hrW]; rfl
  have hm : p'.rotate_manager_token.truthy = false := by rw [hmeq, hrM]; rfl
  have hcmp0 : compare_to_active p' old c.supported (firstInspect c).differences
      = (⟨[]⟩ : DifferenceTracker) := by
    simp only [compare_to_active, hw, hm, Bool.false_eq_true, if_false, ite_false,
      hfold]
  have hupd : update_swarm c
      = .ok ({ firstInspect c with
                differences := (⟨[]⟩ : DifferenceTracker),
                actions := (firstInspect c).actions ++ ["No modification"],
                changed := false }, none) := by
    simp only [update_swarm, hver, hp, hold, hcmp0]
    rfl
  refine ⟨{ firstInspect c with
             differences := (⟨[]⟩ : DifferenceTracker),
             actions := (firstInspect c).actions ++ ["No modification"],
             changed := false }, ?_, rfl, rfl, ?_⟩
  · simp only [init_swarm, hforce, hmgr, Bool.not_false, Bool.and_self, ite_true,
      if_true, hupd]
  · rw [firstInspect_actions]
    rfl

/-- Witness for C1: a manager node observing the sample document, no
user-supplied fields. -/
theorem claim_present_idempotent_witness :
    ∃ st, init_swarm cIdem = .ok (st, none, none)
      ∧ st.differences.empty = true ∧ st.changed = false
      ∧ st.actions = ["No modification"] :=
  claim_present_idempotent cIdem (.vInt 11) _ _ rfl rfl rfl rfl rfl rfl rfl
    (by
      intro f hf hne
      fin_cases hf <;> exact absurd rfl hne)

/-- C9: on the update path, a requested worker- or manager-token rotation
always adds the corresponding synthetic `(flag, true, false)` difference,
so the DifferenceSet is non-empty, an update is submitted (outside check
mode) carrying the requested rotation flag, and the result reports
`changed = true`. -/
theorem claim_rotate_forces_update (c : Client) (ver : Value) (p' old : TaskParameters)
    (hforce : c.force = false) (hmgr : c.mgr_before = true)
    (hrot : c.module_params.rotate_worker_token = .vBool true
            ∨ c.module_params.rotate_manager_token = .vBool true)
    (hcm : c.check_mode = false)
    (hupdres : c.update_result = .ok ())
    (hver : docIndex2 (firstInspect c).swarm_info "Version" "Index" = .ok ver)
    (hp : update_from_swarm_info (userParams c) (firstInspect c).swarm_info = .ok p')
    (hold : update_from_swarm_info blankParams (firstInspect c).swarm_info = .ok old) :
    ∃ st call, init_swarm c = .ok (st, none, some call)
      ∧ st.changed = true
      ∧ st.differences.empty = false
      ∧ (c.module_params.rotate_worker_token = .vBool true →
          st.differences.has_difference_for .rotate_worker_token = true
          ∧ call.rotate_worker_token = .vBool true)
      ∧ (c.module_params.rotate_manager_token = .vBool true →
          st.differences.has_difference_for .rotate_manager_token = true
          ∧ call.rotate_manager_token = .vBool true) := by
  have hweq : p'.rotate_worker_token = c.module_params.rotate_worker_token :=
    ufsi_get_skip hp .rotate_worker_token (by decide)
  have hmeq : p'.rotate_manager_token = c.module_params.rotate_manager_token :=
    ufsi_get_skip hp .rotate_manager_token (by decide)
  have htW : c.module_params.rotate_worker_token = .vBool true →
      p'.rotate_worker_token.truthy = true := fun h => by rw [hweq, h]; rfl
  have htM : c.module_params.rotate_manager_token = .vBool true →
      p'.rotate_manager_token.truthy = true := fun h => by rw [hmeq, h]; rfl
  have hor : p'.rotate_worker_token.truthy = true
      ∨ p'.rotate_manager_token.truthy = true := by
    rcases hrot with h | h
    · exact Or.inl (htW h)
    · exact Or.inr (htM h)
  set F := allFields.foldl (cmpStep p' old c.supported) (firstInspect c).differences
    with hF
  have hfacts :
      (compare_to_active p' old c.supported (firstInspect c).differences).empty = false
      ∧ (p'.rotate_worker_token.truthy = true →
          (compare_to_active p' old c.supported
            (firstInspect c).differences).has_difference_for .rotate_worker_token = true)
      ∧ (p'.rotate_manager_token.truthy = true →
          (compare_to_active p' old c.supported
            (firstInspect c).differences).has_difference_for .rotate_manager_token
              = true) := by
    by_cases hw : p'.rotate_worker_token.truthy = true <;>
      by_cases hm : p'.rotate_manager_token.truthy = true
    · simp only [compare_to_active, hw, hm, eq_self_iff_true, if_true, ite_true, hF]
      exact ⟨empty_add _ _ _ _, fun _ => by simp [hdf_add, hdf_add_self],
        fun _ => hdf_add_self _ _ _ _⟩
    · simp only [compare_to_active, hw, hm, eq_self_iff_true, if_true, ite_true,
        if_false, ite_false, hF]
      exact ⟨empty_add _ _ _ _, fun _ => hdf_add_self _ _ _ _,
        fun h => absurd h (by decide)⟩
    · simp only [compare_to_active, hw, hm, eq_self_iff_true, if_true, ite_true,
        if_false, ite_false, hF]
      exact ⟨empty_add _ _ _ _, fun h => absurd h (by decide),
        fun _ => hdf_add_self _ _ _ _⟩
    · rcases hor with h | h
      · exact absurd h hw
      · exact absurd h hm
  refine ⟨{ inspect_swarm c.inspect2 c.key_fetch2 p'
              { firstInspect c with
                 differences :=
                   compare_to_active p' old c.supported (firstInspect c).differences }
            with
             actions := (inspect_swarm c.inspect2 c.key_fetch2 p'
               { firstInspect c with
                  differences := compare_to_active p' old c.supported
                    (firstInspect c).differences }).actions ++ ["Swarm cluster updated"],
             changed := true },
          ⟨ver, update_parameters (from_ansible_params c.module_params) c.supported,
            p'.rotate_worker_token, p'.rotate_manager_token⟩, ?_, rfl, ?_, ?_, ?_⟩
  · simp only [init_swarm, hforce, hmgr, Bool.not_false, Bool.and_self, ite_true,
      if_true, update_swarm, hver, hp, hold, hfacts.1, Bool.false_eq_true, if_false,
      ite_false, hcm, hupdres]
  · rw [inspect_differences]
    exact hfacts.1
  · intro h
    refine ⟨?_, hweq.trans h⟩
    rw [inspect_differences]
    exact hfacts.2.1 (htW h)
  · intro h
    refine ⟨?_, hmeq.trans h⟩
    rw [inspect_differences]
    exact hfacts.2.2 (htM h)

/-- Witness for C9: both token rotations requested on an otherwise
converged manager node. -/
theorem claim_rotate_forces_update_witness :
    ∃ st call, init_swarm cRotate = .ok (st, none, some call)
      ∧ st.changed = true
      ∧ st.differences.empty = false
      ∧ (cRotate.module_params.rotate_worker_token = .vBool true →
          st.differences.has_difference_for .rotate_worker_token = true
          ∧ call.rotate_worker_token = .vBool true)
      ∧ (cRotate.module_params.rotate_manager_token = .vBool true →
          st.differences.has_difference_for .rotate_manager_token = true
          ∧ call.rotate_manager_token = .vBool true) :=
  claim_rotate_forces_update cRotate (.vInt 11) _ _ rfl rfl (Or.inl rfl) rfl rfl
    rfl rfl rfl

/-- An update call reported by `update_swarm` comes from the non-empty
branch: real mode, observed version, fresh spec and backfilled rotate
flags. -/
theorem update_swarm_call_elim {c : Client} {st : MState} {call : UpdateCall}
    (h : update_swarm c = .ok (st, some call)) :
    ∃ ver p',
      docIndex2 (firstInspect c).swarm_info "Version" "Index" = .ok ver
      ∧ update_from_swarm_info (userParams c) (firstInspect c).swarm_info = .ok p'
      ∧ c.check_mode = false
      ∧ call = ⟨ver, update_parameters (from_ansible_params c.module_params) c.supported,
          p'.rotate_worker_token, p'.rotate_manager_token⟩ := by
  unfold update_swarm at h
  by_cases hcm : c.check_mode = true
  · simp only [hcm, if_true, ite_true] at h
    split at h
    · exact absurd h (by simp)
    · split at h
      · exact absurd h (by simp)
      · split at h
        · exact absurd h (by simp)
        · split at h
          · exact absurd h (by simp)
          · exact absurd h (by simp)
  · rw [Bool.not_eq_true] at hcm
    simp only [hcm, Bool.false_eq_true, if_false, ite_false] at h
    split at h
    · exact absurd h (by simp)
    · rename_i ver hver
      split at h
      · exact absurd h (by simp)
      · rename_i p' hp'
        split at h
        · exact absurd h (by simp)
        · rename_i old hold
          split at h
          · exact absurd h (by simp)
          · split at h
            · exact absurd h (by simp)
            · refine ⟨ver, p', hver, hp', hcm, ?_⟩
              injection h with h
              have h2 := congrArg Prod.snd h
              simp only at h2
              injection h2 with h2
              exact h2.symm

/-- A submitted update reported by `init_swarm` comes from the update
dispatch (already a manager, no forced reset). -/
theorem init_swarm_update_elim {c : Client} {st : MState} {ic : Option InitCall}
    {call : UpdateCall}
    (h : init_swarm c = .ok (st, ic, some call)) :
    update_swarm c = .ok (st, some call) ∧ ic = none := by
  unfold init_swarm at h
  split at h
  · split at h
    · exact absurd h (by simp)
    · rename_i r hr
      injection h with h
      obtain ⟨h1, h2⟩ := Prod.mk.injEq .. ▸ h
      obtain ⟨h3, h4⟩ := Prod.mk.injEq .. ▸ h2
      exact ⟨by rw [hr, h1, h4], h3.symm⟩
  · by_cases hcm : c.check_mode = true
    · simp only [hcm, if_true, ite_true, Bool.not_true, Bool.and_false,
        Bool.false_eq_true, if_false, ite_false] at h
      exact absurd h (by simp)
    · rw [Bool.not_eq_true] at hcm
      simp only [hcm, Bool.false_eq_true, if_false, ite_false] at h
      split at h
      · exact absurd h (by simp)
      · split at h
        · exact absurd h (by simp)
        · exact absurd h (by simp)

/-- C3: every update submitted by the create-or-update operation carries a
specification rebuilt from the raw module parameters — each transmitted
value is exactly the caller's explicitly supplied value, never a
backfilled one — and is tagged with the version index observed at read
time. -/
theorem claim_update_spec_fresh (c : Client) (st : MState) (ic : Option InitCall)
    (call : UpdateCall)
    (h : init_swarm c = .ok (st, ic, some call)) :
    call.swarm_spec = update_parameters (from_ansible_params c.module_params) c.supported
    ∧ (∀ f v, (f, v) ∈ call.swarm_spec →
        (from_ansible_params c.module_params).get f = v
        ∧ (from_ansible_params c.module_params).get f ≠ .vNone)
    ∧ docIndex2 (firstInspect c).swarm_info "Version" "Index" = .ok call.version := by
  obtain ⟨hu, _⟩ := init_swarm_update_elim h
  obtain ⟨ver, p', hver, _, _, hcall⟩ := update_swarm_call_elim hu
  subst hcall
  refine ⟨rfl, ?_, hver⟩
  intro f v hv
  have hs := update_parameters_sound _ _ _ _ hv
  exact ⟨hs.2.2.2, hs.2.2.1⟩

/-- Witness for C3: the submitted election-tick update of the sample
client. -/
theorem claim_update_spec_fresh_witness :
    (((initSwarmOk cTick).2.2).getD ⟨.vNone, [], .vNone, .vNone⟩).swarm_spec
        = update_parameters (from_ansible_params cTick.module_params) cTick.supported
    ∧ (∀ f v, (f, v) ∈ (((initSwarmOk cTick).2.2).getD ⟨.vNone, [], .vNone, .vNone⟩).swarm_spec →
        (from_ansible_params cTick.module_params).get f = v
        ∧ (from_ansible_params cTick.module_params).get f ≠ .vNone)
    ∧ docIndex2 (firstInspect cTick).swarm_info "Version" "Index"
        = .ok (((initSwarmOk cTick).2.2).getD ⟨.vNone, [], .vNone, .vNone⟩).version :=
  claim_update_spec_fresh cTick (initSwarmOk cTick).1 (initSwarmOk cTick).2.1
    (((initSwarmOk cTick).2.2).getD ⟨.vNone, [], .vNone, .vNone⟩) rfl

/-- C6: a successful fresh creation (uninitialised node or forced reset)
reports `changed = true`, appends exactly one creation action string,
restricts the returned facts to the `JoinTokens` and `UnlockKey` entries,
and records exactly one synthetic `state` difference from `absent` to
`present`. -/
theorem claim_fresh_create_report (c : Client) (doc : Value)
    (hpath : c.mgr_before = false ∨ c.force = true)
    (hcm : c.check_mode = false)
    (hinitres : c.init_result = .ok ())
    (hmgr2 : c.mgr_after = true)
    (hins : c.inspect1 = .ok doc) :
    ∃ st ic, init_swarm c = .ok (st, some ic, none)
      ∧ st.changed = true
      ∧ st.actions = ["New Swarm cluster created: "
          ++ (dictGetD (createInspect c).swarm_info "ID").pyStr]
      ∧ st.differences.entries = [⟨.state, .vStr "present", .vStr "absent"⟩]
      ∧ st.facts = some (.vDictCons "JoinTokens"
          (dictGetD (createInspect c).swarm_info "JoinTokens")
          (.vDictCons "UnlockKey" (dictGetD (createInspect c).swarm_info "UnlockKey")
            .vDictNil))
      ∧ ic.swarm_spec = update_parameters (userParams c) c.supported := by
  have hcond : (!c.force && c.mgr_before) = false := by
    rcases hpath with hp0 | hp0 <;> simp [hp0]
  have hd0 : (createInspect c).differences = ⟨[]⟩ :=
    (inspect_differences _ _ _ _).trans rfl
  have ha0 : (createInspect c).actions = [] :=
    (inspect_actions _ _ _ _).trans rfl
  refine ⟨{ createInspect c with
             actions := (createInspect c).actions ++ ["New Swarm cluster created: "
               ++ (dictGetD (createInspect c).swarm_info "ID").pyStr],
             differences := (createInspect c).differences.add .state (.vStr "present")
               (.vStr "absent"),
             changed := true,
             facts := some (.vDictCons "JoinTokens"
               (dictGetD (createInspect c).swarm_info "JoinTokens")
               (.vDictCons "UnlockKey" (dictGetD (createInspect c).swarm_info "UnlockKey")
                 .vDictNil)) },
          { advertise_addr := (userParams c).advertise_addr,
            listen_addr := (userParams c).listen_addr,
            force_new_cluster := c.force,
            swarm_spec := update_parameters (userParams c) c.supported,
            default_addr_pool := if (userParams c).default_addr_pool ≠ .vNone then
              some (userParams c).default_addr_pool else none,
            subnet_size := if (userParams c).subnet_size ≠ .vNone then
              some (userParams c).subnet_size else none,
            data_path_addr := if (userParams c).data_path_addr ≠ .vNone then
              some (userParams c).data_path_addr else none,
            data_path_port := if (userParams c).data_path_port ≠ .vNone then
              some (userParams c).data_path_port else none },
          ?_, rfl, ?_, ?_, rfl, rfl⟩
  · simp only [init_swarm, hcond, Bool.false_eq_true, if_false, ite_false, hcm,
      hinitres, hmgr2, Bool.not_true, Bool.not_false, Bool.and_true, Bool.and_false,
      Bool.false_and]
  · rw [ha0]
    rfl
  · rw [hd0]
    rfl

/-- Witness for C6: creation on an uninitialised node observing the
sample document. -/
theorem claim_fresh_create_report_witness :
    ∃ st ic, init_swarm cCreate = .ok (st, some ic, none)
      ∧ st.changed = true
      ∧ st.actions = ["New Swarm cluster created: "
          ++ (dictGetD (createInspect cCreate).swarm_info "ID").pyStr]
      ∧ st.differences.entries = [⟨.state, .vStr "present", .vStr "absent"⟩]
      ∧ st.facts = some (.vDictCons "JoinTokens"
          (dictGetD (createInspect cCreate).swarm_info "JoinTokens")
          (.vDictCons "UnlockKey" (dictGetD (createInspect cCreate).swarm_info "UnlockKey")
            .vDictNil))
      ∧ ic.swarm_spec = update_parameters (userParams cCreate) cCreate.supported :=
  claim_fresh_create_report cCreate exDoc (Or.inl rfl) rfl rfl rfl rfl

/-- C2: for every field the caller left unset, after backfill from the
observed cluster document the field's desired value equals the
corresponding observed value, and the field never appears in the
DifferenceSet produced by the comparison. -/
theorem claim_backfill_correct (mp : ModuleParams) (supported : Field → Bool)
    (doc : Value) (p' old : TaskParameters) (f : Field)
    (hf : f ∈ backfillFields)
    (hunset : (from_ansible_params mp).get f = .vNone)
    (hp : update_from_swarm_info (from_ansible_params mp) doc = .ok p')
    (hold : update_from_swarm_info blankParams doc = .ok old) :
    p'.get f = old.get f ∧
      (compare_to_active p' old supported ⟨[]⟩).has_difference_for f = false := by
  have hcmp : f ∈ comparedFields := by fin_cases hf <;> decide
  have h1 : p'.get f = old.get f :=
    backfilled_agrees hp hold rfl f hcmp (fun h => absurd hunset h)
  refine ⟨h1, ?_⟩
  rw [Bool.eq_false_iff]
  intro h
  rcases hdf_compare_to_active _ _ _ _ _ h with h0 | h0 | h0 | h0
  · exact Bool.false_ne_true h0
  · rw [h0] at hf
    exact absurd hf (by decide)
  · rw [h0] at hf
    exact absurd hf (by decide)
  · exact h0.2.2.2.2 h1

/-- Witness for C2 at the sample document with no user-supplied fields. -/
theorem claim_backfill_correct_witness :
    (ufsiOk (from_ansible_params {}) exDoc).get .election_tick
        = (ufsiOk blankParams exDoc).get .election_tick ∧
      (compare_to_active (ufsiOk (from_ansible_params {}) exDoc)
          (ufsiOk blankParams exDoc) (fun _ => true)
          ⟨[]⟩).has_difference_for .election_tick = false :=
  claim_backfill_correct {} (fun _ => true) exDoc _ _ .election_tick (by decide)
    rfl rfl rfl

/-- C8 counterexample: a document whose `Spec` carries `Name` but no
`TaskDefaults` key makes the backfill raise a `KeyError` instead of
treating the missing sub-section as an empty mapping. -/
theorem claim_missing_sections_cex :
    update_from_swarm_info blankParams
        (.vDictCons "Spec" (.vDictCons "Name" (.vStr "default") .vDictNil) .vDictNil)
      = .error "KeyError: TaskDefaults" := rfl

/-- C8 amended: missing `CAConfig`, `Dispatcher`, `Raft`, `Orchestration`,
`EncryptionConfig` and `Labels` sub-sections are treated as empty mappings
(the backfill behaves exactly as with explicitly empty sections) and the
step completes without error; the `Name` key (when the name is unset) and
the `TaskDefaults` key are however read by direct indexing and must be
present. -/
theorem claim_missing_sections_amended (p : TaskParameters) (nm : Value) :
    (update_from_swarm_info p
        (.dict [("Spec", .dict [("Name", nm), ("TaskDefaults", .vDictNil)])])
      = update_from_swarm_info p
        (.dict [("Spec", .dict
          [("CAConfig", .vDictNil), ("Dispatcher", .vDictNil), ("Raft", .vDictNil),
           ("Orchestration", .vDictNil), ("EncryptionConfig", .vDictNil),
           ("Labels", .vDictNil), ("Name", nm), ("TaskDefaults", .vDictNil)])]))
    ∧ ∃ q, update_from_swarm_info p
        (.dict [("Spec", .dict [("Name", nm), ("TaskDefaults", .vDictNil)])])
          = .ok q := by
  constructor
  · rfl
  · by_cases hn : p.name = .vNone
    · exact ⟨_, ufsi_ok_intro rfl (applyName_unset hn rfl) rfl⟩
    · exact ⟨_, ufsi_ok_intro rfl (applyName_set hn) rfl⟩

/-- C4: the comparison never reports a connection-only field nor a field
the capability gate marks unsupported, and an unsupported field never
appears in the keyword arguments of a submitted specification. -/
theorem claim_gating_exclusion (p other : TaskParameters) (supported : Field → Bool)
    (f : Field)
    (hwf : ∀ g, g ∉ gateableFields → supported g = true)
    (hf : f ∈ connectionFields ∨ supported f = false) :
    (compare_to_active p other supported ⟨[]⟩).has_difference_for f = false ∧
      ∀ v, (f, v) ∉ update_parameters p supported := by
  constructor
  · rw [Bool.eq_false_iff]
    intro h
    rcases hdf_compare_to_active _ _ _ _ _ h with h0 | h0 | h0 | h0
    · exact Bool.false_ne_true h0
    · subst h0
      rcases hf with hc | hu
      · exact absurd hc (by decide)
      · rw [hwf _ (by decide)] at hu
        exact absurd hu (by decide)
    · subst h0
      rcases hf with hc | hu
      · exact absurd hc (by decide)
      · rw [hwf _ (by decide)] at hu
        exact absurd hu (by decide)
    · rcases h0 with ⟨_, hskip, hsup, _, _⟩
      rcases hf with hc | hu
      · fin_cases hc <;> exact absurd (by decide) hskip
      · rw [hu] at hsup
        exact Bool.false_ne_true hsup
  · intro v hv
    rcases hf with hc | hu
    · have h1 := (update_parameters_sound p supported f v hv).1
      fin_cases hc <;> exact absurd h1 (by decide)
    · exact update_parameters_gated p supported f hu v hv

/-- Witness for C4: the advertise address with an all-supporting gate. -/
theorem claim_gating_exclusion_witness :
    (compare_to_active (from_ansible_params {}) blankParams (fun _ => true)
        ⟨[]⟩).has_difference_for .advertise_addr = false ∧
      ∀ v, (.advertise_addr, v) ∉
        update_parameters (from_ansible_params {}) (fun _ => true) :=
  claim_gating_exclusion _ _ _ _ (fun _ _ => rfl) (Or.inl (by decide))

/-- C7: the unlock key is fetched exactly when autolock is desired and the
cluster was freshly created or the autolock field changed; when fetched,
a transport error is swallowed and the null-key default substituted; the
fetch result is merged into the document after every successful inspect. -/
theorem claim_unlock_key_best_effort (p : TaskParameters) (created : Bool)
    (d : DifferenceTracker) :
    (has_swarm_lock_changed p created d
        = (p.autolock_managers.truthy &&
            (created || d.has_difference_for .autolock_managers)))
    ∧ (has_swarm_lock_changed p created d = false →
        ∀ f1 f2 : Except Unit Value,
          get_unlock_key p created d f1 = get_unlock_key p created d f2)
    ∧ (has_swarm_lock_changed p created d = true →
        get_unlock_key p created d (.error ()) = unlockDefault)
    ∧ (has_swarm_lock_changed p created d = true →
        ∀ v : Value, v.falsy = false → get_unlock_key p created d (.ok v) = v)
    ∧ ∀ (fetch : Except Unit Value) (st : MState) (data : Value),
        (inspect_swarm (.ok data) fetch p st).swarm_info
          = dictUpdate data (get_unlock_key p st.created st.differences fetch) := by
  refine ⟨rfl, ?_, ?_, ?_, ?_⟩
  · intro hno f1 f2
    unfold get_unlock_key
    rw [hno]
    rfl
  · intro hyes
    unfold get_unlock_key
    rw [hyes]
    rfl
  · intro hyes v hv
    unfold get_unlock_key
    rw [hyes]
    simp [hv]
  · intro fetch st data
    rfl

/-- Witness for C7: autolock desired on a fresh creation, failing fetch. -/
theorem claim_unlock_key_best_effort_witness :
    get_unlock_key pAutolock true ⟨[]⟩ (.error ()) = unlockDefault :=
  (claim_unlock_key_best_effort pAutolock true ⟨[]⟩).2.2.1 rfl

/-- C5: a remove on a manager whose target node never reports down within
the five-check polling budget fails fatally with the exact message and
submits no remove-node request. -/
theorem claim_remove_not_down_fatal (statuses : Nat → Bool)
    (removeRes : Except Unit Unit) (cm : Bool)
    (h5 : ∀ i, i < 5 → statuses i = false) :
    remove true (.ok (check_if_swarm_node_is_down statuses 5)) removeRes cm
      = (.error "Can not remove the node. The status node is ready and not down.",
         false) := by
  have hdown : check_if_swarm_node_is_down statuses 5 = false := by
    unfold check_if_swarm_node_is_down
    rw [Bool.eq_false_iff]
    intro h
    obtain ⟨i, hi, hpi⟩ := List.any_eq_true.mp h
    rw [h5 i (List.mem_range.mp hi)] at hpi
    exact Bool.false_ne_true hpi
  rw [hdown]
  rfl

/-- Witness for C5: a node that always reports not-down. -/
theorem claim_remove_not_down_fatal_witness :
    remove true (.ok (check_if_swarm_node_is_down (fun _ => false) 5)) (.ok ()) false
      = (.error "Can not remove the node. The status node is ready and not down.",
         false) :=
  claim_remove_not_down_fatal (fun _ => false) (.ok ()) false (fun _ _ => rfl)

/-- C10: when the status poll raises a transport error, the remove
operation returns silently: success, no remove submission, no action,
`changed = false`. -/
theorem claim_remove_poll_error_silent (removeRes : Except Unit Unit) (cm : Bool) :
    remove true (.error ()) removeRes cm = (.ok initState, false)
      ∧ initState.changed = false ∧ initState.actions = []
      ∧ initState.differences.empty = true :=
  ⟨rfl, rfl, rfl, rfl⟩

end DockerSwarm
